import Mathlib

/-!
Verification development for the configuration wizard `setup.py` of
mc-status-bot (an interactive command-line configuration tool).

The terminal is modelled as a finite list of input lines, consumed left to
right.  Every interactive loop of the source is translated to a function
that consumes the input list and returns `none` when the list is exhausted
before the loop could terminate: on an infinite behaviourally-identical
stream the real program would still be blocked, so `none` stands for
"blocks on further input".  Python scalars stored in the config document
(strings, ints, None) are modelled by `Value`.
-/

set_option autoImplicit false

namespace MCStatusBot

/-- A Python scalar as it appears in the configuration document and in the
option defaults: a string, an int, or `None`. -/
inductive Value where
  | vstr (s : String)
  | vint (n : Int)
  | vnone
  deriving DecidableEq, Repr

/-- Python truthiness of a `Value` (`if default:` etc.): `None` is falsy,
a string is truthy iff non-empty, an int is truthy iff non-zero. -/
def Value.truthy : Value → Bool
  | Value.vnone => false
  | Value.vstr s => s != ""
  | Value.vint n => n != 0

/-- Python `str()` of a `Value`, as used by the f-string rendering
`f" [{default}]"` in `get_info`. -/
def Value.pyStr : Value → String
  | Value.vnone => "None"
  | Value.vstr s => s
  | Value.vint n => toString n

/-- Python `str.lower()` (an injected runtime primitive), embedded for the
ASCII inputs the wizard deals in: lowercase every character. -/
def strLower (s : String) : String :=
  String.mk (s.data.map Char.toLower)

/-- Python `.lower()` on the value held by `ServerType.prompt`'s `result`.
In Python a non-string would raise `AttributeError`; in every reachable
call the value is a string (the default `"java"` or an entered line), so
the non-string branches are unreachable and return the value unchanged. -/
def Value.pyLower : Value → Value
  | Value.vstr s => Value.vstr (strLower s)
  | v => v

/-- Strip leading and trailing whitespace, as Python `int(...)` does
before parsing. -/
def charsTrim (cs : List Char) : List Char :=
  ((cs.dropWhile Char.isWhitespace).reverse.dropWhile Char.isWhitespace).reverse

/-- Value of a non-empty all-digit character run, else `none`. -/
def digitsVal (cs : List Char) : Option Nat :=
  if cs = [] then none
  else if cs.all Char.isDigit then
    some (cs.foldl (fun n c => 10 * n + (c.toNat - 48)) 0)
  else none

/-- Python `int(s)` on a string (an injected runtime primitive), embedded
for the decimal inputs the wizard deals in: strip surrounding whitespace,
allow one leading sign, then require a non-empty digit run; a
`ValueError` is `none`. -/
def pyParseInt (s : String) : Option Int :=
  match charsTrim s.data with
  | '-' :: cs => (digitsVal cs).map (fun n => -(n : Int))
  | '+' :: cs => (digitsVal cs).map (fun n => (n : Int))
  | cs => (digitsVal cs).map (fun n => (n : Int))

/-- Python `int(result)` in `RefreshRate.prompt` (line 138): an int passes
through, a string is parsed.  (`int(None)` would raise `TypeError`, which
the `except ValueError` there would not catch; that branch is unreachable
because `get_info` with default `60` never yields `None`.) -/
def tryInt : Value → Option Int
  | Value.vint n => some n
  | Value.vstr s => pyParseInt s
  | Value.vnone => none

/-- The configuration document: a Python dict `str -> scalar`, modelled as
an association list (first binding of a key is the live one). -/
abbrev Config := List (String × Value)

/-- Dict lookup `config.get(key)` / key-membership: `some v` when the key
is present (possibly bound to `Value.vnone`, i.e. Python `None`), `none`
when the key is absent. -/
def Config.get : Config → String → Option Value
  | [], _ => none
  | (k, v) :: rest, key => if k = key then some v else Config.get rest key

/-- Dict assignment `config[key] = val`: update the live binding in place,
or append a new binding when the key is absent. -/
def Config.set : Config → String → Value → Config
  | [], key, val => [(key, val)]
  | (k, v) :: rest, key, val =>
      if k = key then (key, val) :: rest else (k, v) :: Config.set rest key val

/-- `y_n(q)` (setup.py lines 35-41): read lines until one lowercases into
the affirmative set `{"yes","y"}` (return `true`) or the negative set
`{"no","n"}` (return `false`); any other line re-prompts.  The question
string only affects the rendered text, never the control flow, so it is
not a parameter here. -/
def y_n : List String → Option (Bool × List String)
  | [] => none
  | ri :: rest =>
      if strLower ri = "yes" ∨ strLower ri = "y" then some (true, rest)
      else if strLower ri = "no" ∨ strLower ri = "n" then some (false, rest)
      else y_n rest

/-- `get_info(question, *, default=None, optional=True)` (lines 43-57),
value behaviour only (the rendered text is modelled by `renderedPrompt`
below): read a line; an empty line returns `default` when `optional`, and
re-prompts when not `optional`; a non-empty line is returned as a string. -/
def get_info (default : Value) (optional : Bool) : List String → Option (Value × List String)
  | [] => none
  | result :: rest =>
      if result = "" ∧ optional then some (default, rest)
      else if optional = false ∧ result = "" then get_info default optional rest
      else some (Value.vstr result, rest)

/-- `default_text` of `get_info` (lines 44-45): `f" [{default}]"` when the
default is truthy, `" []"` otherwise, and suppressed entirely when the
option is not optional. -/
def default_text (default : Value) (optional : Bool) : String :=
  let dt := if default.truthy then " [" ++ default.pyStr ++ "]" else " []"
  if optional then dt else ""

/-- The full prompt line `f"{question}{default_text}: "` rendered by
`get_info` (line 48). -/
def renderedPrompt (question : String) (default : Value) (optional : Bool) : String :=
  question ++ default_text default optional ++ ": "

/-- `ConfigOption` (lines 60-73): name, help text, default, optionality.
The construction-time check is `ConfigOption.mk?` below; instances are
immutable after construction. -/
structure ConfigOption where
  name : String
  help : String
  default : Value := Value.vnone
  optional : Bool := true
  deriving DecidableEq, Repr

/-- `ConfigOption.__init__` (lines 61-69): `if default and not optional:
raise ValueError(...)` — note the check uses Python truthiness of
`default`, not `default is not None`. -/
def ConfigOption.mk? (name help : String) (default : Value) (optional : Bool) :
    Except String ConfigOption :=
  if default.truthy && !optional then
    Except.error "this option is optional yet a default has been set"
  else
    Except.ok { name := name, help := help, default := default, optional := optional }

/-- `BotToken` (lines 76-78): `super().__init__("bot-token", "Enter the
token for the bot", optional=False)`. -/
def botTokenOpt : ConfigOption :=
  { name := "bot-token", help := "Enter the token for the bot",
    default := Value.vnone, optional := false }

/-- The description built in `BotToken.prompt` (lines 81-84): the help
text plus a static explanatory suffix. -/
def botTokenDescription : String :=
  botTokenOpt.help ++
    (".\nYou can get the bot's token from the bot application. " ++
     "To learn how to create a bot application, visit https://discordpy.readthedocs.io/en/latest/discord.html")

/-- `Prefix` (lines 89-91): name "prefix", default ";". -/
def prefixOption : ConfigOption :=
  { name := "prefix", help := "Enter the prefix for the bot",
    default := Value.vstr ";", optional := true }

/-- `ServerType` (lines 94-100): name "server-type", default "java". -/
def serverTypeOpt : ConfigOption :=
  { name := "server-type",
    help := "Enter the type of Minecraft server (Java or Bedrock)",
    default := Value.vstr "java", optional := true }

/-- `ServerIP` (lines 116-122): name "server-ip", optional=False. -/
def serverIPOpt : ConfigOption :=
  { name := "server-ip",
    help := "Enter the Minecraft server ip to display status for",
    default := Value.vnone, optional := false }

/-- `RefreshRate` (lines 125-131): name "refresh-rate", default 60. -/
def refreshRateOpt : ConfigOption :=
  { name := "refresh-rate",
    help := "Enter the amount of seconds to wait in between status refreshes",
    default := Value.vint 60, optional := true }

/-- `MaintenceModeDetection` (lines 151-157): name
"maintenance-mode-detection", default None (so optional=True). -/
def maintenanceOpt : ConfigOption :=
  { name := "maintenance-mode-detection",
    help := "Enter the text to look for in the MOTD",
    default := Value.vnone, optional := true }

/-- `OPTIONS` (line 174), in source order. -/
def OPTIONS : List ConfigOption :=
  [botTokenOpt, prefixOption, serverTypeOpt, serverIPOpt, refreshRateOpt, maintenanceOpt]

/-- `get_option(key)` (lines 177-181): first option whose name matches,
else `None`. -/
def get_option (key : String) : Option ConfigOption :=
  OPTIONS.find? (fun o => o.name = key)

/-- `all_keys = [o.name for o in OPTIONS]` (line 187). -/
def all_keys : List String := OPTIONS.map (fun o => o.name)

/-- `ConfigOption.prompt` (lines 71-73), the base prompt: delegate to
`get_info` with the option's own default and optionality. -/
def basePrompt (o : ConfigOption) (input : List String) : Option (Value × List String) :=
  get_info o.default o.optional input

/-- `BotToken.prompt` (lines 80-86): same as the base prompt (default
None, optional=False); only the displayed description differs. -/
def botTokenPrompt (input : List String) : Option (Value × List String) :=
  get_info botTokenOpt.default botTokenOpt.optional input

/-- `ServerIP` uses the inherited base prompt (default None,
optional=False). -/
def serverIPPrompt (input : List String) : Option (Value × List String) :=
  get_info serverIPOpt.default serverIPOpt.optional input

/-- `Prefix` uses the inherited base prompt (default ";", optional). -/
def prefixOptionPrompt (input : List String) : Option (Value × List String) :=
  get_info prefixOption.default prefixOption.optional input

/-- `ServerType.prompt` (lines 102-113): loop `get_info` (default "java",
optional, hence one line consumed per iteration — see `get_info_true_cons`
below, which this definition inlines), lowercase the result, accept it
when it is "java" or "bedrock", otherwise print a corrective message and
loop. -/
def serverTypePrompt : List String → Option (Value × List String)
  | [] => none
  | line :: rest =>
      match (if line = "" then Value.vstr "java" else Value.vstr line).pyLower with
      | Value.vstr result =>
          if result = "java" ∨ result = "bedrock" then some (Value.vstr result, rest)
          else serverTypePrompt rest
      | _ => none

/-- `RefreshRate.prompt` (lines 133-148): loop `get_info` (default 60,
optional, hence one line consumed per iteration — see `get_info_true_cons`
below, which this definition inlines), coerce with `int(...)`
(`ValueError` re-prompts via `continue`), accept when the integer is
`>= 30`, otherwise print a corrective message and loop. -/
def refreshRatePrompt : List String → Option (Value × List String)
  | [] => none
  | line :: rest =>
      match tryInt (if line = "" then Value.vint 60 else Value.vstr line) with
      | none => refreshRatePrompt rest
      | some n =>
          if 30 ≤ n then some (Value.vint n, rest)
          else refreshRatePrompt rest

/-- `MaintenceModeDetection.prompt` (lines 159-171): a yes/no gate first;
declined yields `None` with no further reads; accepted delegates to
`get_info(self.help, optional=False)` (default omitted, i.e. None). -/
def maintenancePrompt (input : List String) : Option (Value × List String) :=
  match y_n input with
  | none => none
  | some (false, rest) => some (Value.vnone, rest)
  | some (true, rest) => get_info Value.vnone false rest

/-- Dynamic dispatch `option.prompt()` on the instance returned by
`get_option`: each of the six registry names routes to its class's
override.  An unknown name means `get_option` returned `None`, on which
Python's `None.prompt()` would crash; that branch is unreachable in both
call sites (keys are drawn from `all_keys`). -/
def promptByName (name : String) (input : List String) : Option (Value × List String) :=
  if name = "bot-token" then botTokenPrompt input
  else if name = "prefix" then prefixOptionPrompt input
  else if name = "server-type" then serverTypePrompt input
  else if name = "server-ip" then serverIPPrompt input
  else if name = "refresh-rate" then refreshRatePrompt input
  else if name = "maintenance-mode-detection" then maintenancePrompt input
  else none

/-- Observable outcome of one `ensure_config_keys` run: the in-memory
document on return, the unread input, the number of yes/no questions the
function itself asked, the number of `option.prompt()` invocations it
made, and the list of documents written to `config.yml`. -/
structure RunResult where
  config : Config
  rest : List String
  gates : Nat
  prompts : Nat
  writes : List Config
  deriving DecidableEq, Repr

/-- The `set_to_default` branch (lines 198-201): for each missing key, in
order, `config[opt] = get_option(opt).default`.  The `none` branch is
unreachable (missing keys come from `all_keys`; Python would crash there
on `None.default`). -/
def fillDefaults : List String → Config → Config
  | [], config => config
  | key :: keys, config =>
      fillDefaults keys
        (match get_option key with
         | some o => Config.set config key o.default
         | none => config)

/-- The interactive branch (lines 203-207): for each missing key, in
order, `config[opt] = get_option(opt).prompt()`, counting the prompt
invocations.  `none` propagates input exhaustion from a prompt. -/
def promptMissing : List String → Config → List String → Nat →
    Option (Config × List String × Nat)
  | [], config, input, count => some (config, input, count)
  | key :: keys, config, input, count =>
      match promptByName key input with
      | none => none
      | some (v, rest) => promptMissing keys (Config.set config key v) rest (count + 1)

/-- `ensure_config_keys(config)` (lines 184-215).  `missing_opts` is the
set difference `set(all_keys) - set(config.keys())`; Python iterates it in
an unspecified order, and each missing key is handled independently of the
others, so it is determinised here as the sub-list of `all_keys` (registry
order) whose keys are absent from the document.  When nothing is missing
the function only prints "Config is up-to-date": no gate, no prompt, no
write, document untouched.  Otherwise one gate question is asked and the
whole document is written to `config.yml` once at the end. -/
def ensure_config_keys (config : Config) (input : List String) : Option RunResult :=
  let missing := all_keys.filter (fun k => (Config.get config k).isNone)
  if missing = [] then
    some { config := config, rest := input, gates := 0, prompts := 0, writes := [] }
  else
    match y_n input with
    | none => none
    | some (true, rest) =>
        let config2 := fillDefaults missing config
        some { config := config2, rest := rest, gates := 1, prompts := 0, writes := [config2] }
    | some (false, rest) =>
        match promptMissing missing config rest 0 with
        | none => none
        | some (config2, rest2, count) =>
            some { config := config2, rest := rest2, gates := 1, prompts := count,
                   writes := [config2] }

/-- Outcome of the dependency bootstrap in `run_setup`: either the import
eventually succeeded and setup proceeds (`ok`), or the loop raised
`OSError` (`fatal`); the payload counts the `update_deps()` re-provisioning
calls made along the way. -/
inductive BootOutcome where
  | ok (remediations : Nat)
  | fatal (remediations : Nat)
  deriving DecidableEq, Repr

/-- The `while loops < 2` bootstrap of `run_setup` (lines 258-273),
unrolled (the loop body runs at most twice).  `importOK k` tells whether
the `k`-th `import yaml` attempt succeeds.  Modelled from the spec: the
re-provisioning action `update_deps()` is called but not defined under
src/; per the spec it is "a re-provisioning action" whose only observable
effect here is whether the next import attempt succeeds, so it is kept
abstract and only counted.  Trace: attempt 0 succeeds → break with 0
remediation calls; else print, `loops = 1`, `update_deps()` (call 1),
`1 < 2` so iterate; attempt 1 succeeds → break with 1 call; else print,
`loops = 2`, `update_deps()` (call 2), `loops >= 2` so raise `OSError`. -/
def run_setup_bootstrap (importOK : Nat → Bool) : BootOutcome :=
  if importOK 0 then BootOutcome.ok 0
  else if importOK 1 then BootOutcome.ok 1
  else BootOutcome.fatal 2

/-! ### Helper lemmas -/

theorem Config.get_set_self (c : Config) (k : String) (v : Value) :
    Config.get (Config.set c k v) k = some v := by
  induction c with
  | nil => simp [Config.set, Config.get]
  | cons hd tl ih =>
      obtain ⟨k1, v1⟩ := hd
      by_cases h : k1 = k <;> simp [Config.set, Config.get, h, ih]

theorem Config.get_set_ne (c : Config) (k k2 : String) (v : Value) (h : k2 ≠ k) :
    Config.get (Config.set c k v) k2 = Config.get c k2 := by
  induction c with
  | nil => simp [Config.set, Config.get, Ne.symm h]
  | cons hd tl ih =>
      obtain ⟨k1, v1⟩ := hd
      by_cases h1 : k1 = k
      · subst h1
        simp [Config.set, Config.get, h, Ne.symm h]
      · simp [Config.set, Config.get, h1, ih]

/-- `get_info` with `optional=True` consumes exactly one line: an empty
line yields the default, anything else is returned verbatim. -/
theorem get_info_true_cons (d : Value) (line : String) (rest : List String) :
    get_info d true (line :: rest) =
      some ((if line = "" then d else Value.vstr line), rest) := by
  by_cases h : line = "" <;> simp [get_info, h]

/-- `get_info` with `optional=False` re-prompts on an empty line. -/
theorem get_info_false_empty (d : Value) (rest : List String) :
    get_info d false ("" :: rest) = get_info d false rest := by
  simp [get_info]

/-- `get_info` with `optional=False` returns a non-empty line verbatim. -/
theorem get_info_false_cons (d : Value) (line : String) (rest : List String)
    (h : line ≠ "") :
    get_info d false (line :: rest) = some (Value.vstr line, rest) := by
  simp [get_info, h]

/-- Whatever `get_info` with `optional=False` returns is a non-empty
entered line (never the default, never empty). -/
theorem get_info_false_sound (d : Value) (input : List String) (v : Value)
    (rest : List String) (h : get_info d false input = some (v, rest)) :
    ∃ s, v = Value.vstr s ∧ s ≠ "" := by
  induction input with
  | nil => cases h
  | cons line tail ih =>
      by_cases hl : line = ""
      · subst hl
        rw [get_info_false_empty] at h
        exact ih h
      · rw [get_info_false_cons d line tail hl] at h
        obtain ⟨hv, -⟩ := Prod.mk.injEq .. ▸ Option.some.injEq .. ▸ h
        exact ⟨line, hv.symm, hl⟩

/-- Leading empty lines are skipped wholesale by a non-optional
`get_info`. -/
theorem get_info_false_skip (d : Value) (k : Nat) (l : List String) :
    get_info d false (List.replicate k "" ++ l) = get_info d false l := by
  induction k with
  | zero => rfl
  | succ m ih => simpa [List.replicate_succ, get_info_false_empty] using ih

/-- A non-optional `get_info` never terminates on empty lines alone. -/
theorem get_info_false_all_empty (d : Value) (k : Nat) :
    get_info d false (List.replicate k "") = none := by
  have := get_info_false_skip d k ([] : List String)
  simpa using this

/-- One-step unfolding of `RefreshRate.prompt`'s loop body. -/
theorem refreshRatePrompt_cons (line : String) (rest : List String) :
    refreshRatePrompt (line :: rest) =
      match tryInt (if line = "" then Value.vint 60 else Value.vstr line) with
      | none => refreshRatePrompt rest
      | some n =>
          if 30 ≤ n then some (Value.vint n, rest)
          else refreshRatePrompt rest := rfl

/-- One-step unfolding of `ServerType.prompt`'s loop body. -/
theorem serverTypePrompt_cons (line : String) (rest : List String) :
    serverTypePrompt (line :: rest) =
      match (if line = "" then Value.vstr "java" else Value.vstr line).pyLower with
      | Value.vstr result =>
          if result = "java" ∨ result = "bedrock" then some (Value.vstr result, rest)
          else serverTypePrompt rest
      | _ => none := rfl

/-- Keys not listed are untouched by the bulk default fill. -/
theorem fillDefaults_get_of_not_mem (l : List String) (c : Config) (k : String)
    (h : k ∉ l) :
    Config.get (fillDefaults l c) k = Config.get c k := by
  induction l generalizing c with
  | nil => rfl
  | cons hd tl ih =>
      have hne : k ≠ hd := fun e => h (e ▸ List.mem_cons_self hd tl)
      have htl : k ∉ tl := fun m => h (List.mem_cons_of_mem _ m)
      cases hgo : get_option hd with
      | none => simp [fillDefaults, hgo, ih _ htl]
      | some o => simp [fillDefaults, hgo, ih _ htl, Config.get_set_ne _ _ _ _ hne]

/-- Each listed key ends up bound to its registry default after the bulk
default fill (list assumed duplicate-free, as a set difference is). -/
theorem fillDefaults_get_of_mem (l : List String) (c : Config) (k : String)
    (o : ConfigOption) (hnd : l.Nodup) (hk : k ∈ l) (ho : get_option k = some o) :
    Config.get (fillDefaults l c) k = some o.default := by
  induction l generalizing c with
  | nil => cases hk
  | cons hd tl ih =>
      rcases List.mem_cons.mp hk with he | hm
      · subst he
        have hnotin : k ∉ tl := (List.nodup_cons.mp hnd).1
        simp [fillDefaults, ho, fillDefaults_get_of_not_mem tl _ k hnotin,
              Config.get_set_self]
      · have hnd' : tl.Nodup := (List.nodup_cons.mp hnd).2
        cases hgo : get_option hd with
        | none => simpa [fillDefaults, hgo] using ih _ hnd' hm
        | some o2 => simpa [fillDefaults, hgo] using ih _ hnd' hm

/-- A successful `get_option` lookup returns a registry member carrying
the requested name. -/
theorem get_option_mem_name (k : String) (o : ConfigOption)
    (h : get_option k = some o) : o ∈ OPTIONS ∧ o.name = k := by
  unfold get_option at h
  refine ⟨List.mem_of_find?_eq_some h, ?_⟩
  have := List.find?_some h
  simpa using this

/-! ### Claim theorems -/

/-- Claim C1: for every loaded configuration document whose key set already
contains every option name in the registry, `ensure_config_keys` performs
zero prompts, zero yes/no gate questions, and zero writes to storage, and
returns with the document unchanged. -/
theorem claim_C1 (config : Config) (input : List String)
    (h : ∀ k, k ∈ all_keys → (Config.get config k).isSome = true) :
    ensure_config_keys config input =
      some { config := config, rest := input, gates := 0, prompts := 0, writes := [] } := by
  have hm : all_keys.filter (fun k => (Config.get config k).isNone) = [] := by
    rw [List.filter_eq_nil_iff]
    intro k hk
    have hs := h k hk
    cases hc : Config.get config k with
    | none => rw [hc] at hs; cases hs
    | some v => simp [hc]
  simp [ensure_config_keys, hm]

/-- Witness for C1: a fully-populated concrete document is passed through
untouched, with no gate, no prompt and no write. -/
theorem claim_C1_witness :
    ensure_config_keys
      [("bot-token", Value.vstr "t"), ("prefix", Value.vstr ";"),
       ("server-type", Value.vstr "java"), ("server-ip", Value.vstr "ip"),
       ("refresh-rate", Value.vint 60), ("maintenance-mode-detection", Value.vnone)]
      ["anything"] =
      some { config := [("bot-token", Value.vstr "t"), ("prefix", Value.vstr ";"),
               ("server-type", Value.vstr "java"), ("server-ip", Value.vstr "ip"),
               ("refresh-rate", Value.vint 60), ("maintenance-mode-detection", Value.vnone)],
             rest := ["anything"], gates := 0, prompts := 0, writes := [] } :=
  claim_C1 _ _ (by decide)

/-- Claim C2: for every loaded document missing exactly the keys
`{"prefix", "refresh-rate"}`, an affirmative use-defaults gate answer
produces a document in which "prefix" equals the Prefix option's default
`";"` and "refresh-rate" equals the RefreshRate option's default `60`,
while every key already present (including keys not in the registry at
all) keeps its prior value and is never deleted. -/
theorem claim_C2 (config : Config) (input rest : List String)
    (hbt : (Config.get config "bot-token").isSome = true)
    (hp : Config.get config "prefix" = none)
    (hst : (Config.get config "server-type").isSome = true)
    (hip : (Config.get config "server-ip").isSome = true)
    (hrr : Config.get config "refresh-rate" = none)
    (hmm : (Config.get config "maintenance-mode-detection").isSome = true)
    (hy : y_n input = some (true, rest)) :
    ∃ r, ensure_config_keys config input = some r ∧
      Config.get r.config "prefix" = some prefixOption.default ∧
      Config.get r.config "refresh-rate" = some refreshRateOpt.default ∧
      prefixOption.default = Value.vstr ";" ∧ refreshRateOpt.default = Value.vint 60 ∧
      ∀ k v, Config.get config k = some v → Config.get r.config k = some v := by
  obtain ⟨vb, hvb⟩ := Option.isSome_iff_exists.mp hbt
  obtain ⟨vs, hvs⟩ := Option.isSome_iff_exists.mp hst
  obtain ⟨vi, hvi⟩ := Option.isSome_iff_exists.mp hip
  obtain ⟨vm, hvm⟩ := Option.isSome_iff_exists.mp hmm
  have hmiss : all_keys.filter (fun k => (Config.get config k).isNone) =
      ["prefix", "refresh-rate"] := by
    simp [all_keys, OPTIONS, botTokenOpt, prefixOption, serverTypeOpt, serverIPOpt,
          refreshRateOpt, maintenanceOpt, hvb, hvs, hvi, hvm, hp, hrr]
  have hfd : fillDefaults ["prefix", "refresh-rate"] config =
      Config.set (Config.set config "prefix" (Value.vstr ";")) "refresh-rate"
        (Value.vint 60) := by
    have hgp : get_option "prefix" = some prefixOption := rfl
    have hgr : get_option "refresh-rate" = some refreshRateOpt := rfl
    simp [fillDefaults, hgp, hgr, prefixOption, refreshRateOpt]
  have heq : ensure_config_keys config input =
      some { config := Config.set (Config.set config "prefix" (Value.vstr ";"))
               "refresh-rate" (Value.vint 60),
             rest := rest, gates := 1, prompts := 0,
             writes := [Config.set (Config.set config "prefix" (Value.vstr ";"))
               "refresh-rate" (Value.vint 60)] } := by
    simp only [ensure_config_keys, hmiss, hy]
    simp [hfd]
  refine ⟨_, heq, ?_, ?_, rfl, rfl, ?_⟩
  · show Config.get (Config.set (Config.set config "prefix" (Value.vstr ";"))
        "refresh-rate" (Value.vint 60)) "prefix" = some prefixOption.default
    rw [Config.get_set_ne _ _ _ _ (by decide), Config.get_set_self]
    rfl
  · show Config.get (Config.set (Config.set config "prefix" (Value.vstr ";"))
        "refresh-rate" (Value.vint 60)) "refresh-rate" = some refreshRateOpt.default
    rw [Config.get_set_self]
    rfl
  · intro k v hkv
    show Config.get (Config.set (Config.set config "prefix" (Value.vstr ";"))
        "refresh-rate" (Value.vint 60)) k = some v
    have hk2 : k ≠ "refresh-rate" := by rintro rfl; rw [hrr] at hkv; cases hkv
    have hk1 : k ≠ "prefix" := by rintro rfl; rw [hp] at hkv; cases hkv
    rw [Config.get_set_ne _ _ _ _ hk2, Config.get_set_ne _ _ _ _ hk1]
    exact hkv

/-- Witness for C2: a concrete document holding the other four registry
keys plus an unknown extra key, gate answered "y". -/
theorem claim_C2_witness :
    ∃ r, ensure_config_keys
        [("bot-token", Value.vstr "t"), ("server-type", Value.vstr "java"),
         ("server-ip", Value.vstr "ip"), ("maintenance-mode-detection", Value.vnone),
         ("extra-key", Value.vstr "keep")] ["y"] = some r ∧
      Config.get r.config "prefix" = some prefixOption.default ∧
      Config.get r.config "refresh-rate" = some refreshRateOpt.default ∧
      prefixOption.default = Value.vstr ";" ∧ refreshRateOpt.default = Value.vint 60 ∧
      ∀ k v,
        Config.get [("bot-token", Value.vstr "t"), ("server-type", Value.vstr "java"),
          ("server-ip", Value.vstr "ip"), ("maintenance-mode-detection", Value.vnone),
          ("extra-key", Value.vstr "keep")] k = some v →
        Config.get r.config k = some v :=
  claim_C2 _ ["y"] [] (by decide) (by decide) (by decide) (by decide) (by decide)
    (by decide) (by decide)

/-- Claim C3: with an affirmative use-defaults gate answer, reconciliation
assigns `document[key] = option.default` for every missing key — including
the absent value `None` for the no-default options bot-token, server-ip
and maintenance-mode-detection — and issues no prompt for any of them. -/
theorem claim_C3 (config : Config) (input rest : List String)
    (hne : all_keys.filter (fun k => (Config.get config k).isNone) ≠ [])
    (hy : y_n input = some (true, rest)) :
    ∃ r, ensure_config_keys config input = some r ∧ r.gates = 1 ∧ r.prompts = 0 ∧
      r.rest = rest ∧
      ∀ k o, get_option k = some o → Config.get config k = none →
        Config.get r.config k = some o.default := by
  have heq : ensure_config_keys config input =
      some { config := fillDefaults
               (all_keys.filter (fun k => (Config.get config k).isNone)) config,
             rest := rest, gates := 1, prompts := 0,
             writes := [fillDefaults
               (all_keys.filter (fun k => (Config.get config k).isNone)) config] } := by
    simp only [ensure_config_keys, hy]
    rw [if_neg hne]
  refine ⟨_, heq, rfl, rfl, rfl, ?_⟩
  intro k o ho hk
  show Config.get (fillDefaults
      (all_keys.filter (fun k => (Config.get config k).isNone)) config) k = some o.default
  have hmemall : k ∈ all_keys := by
    obtain ⟨hoMem, hoName⟩ := get_option_mem_name k o ho
    exact hoName ▸ List.mem_map_of_mem _ hoMem
  have hmem : k ∈ all_keys.filter (fun k => (Config.get config k).isNone) :=
    List.mem_filter.mpr ⟨hmemall, by simp [hk]⟩
  have hnd : (all_keys.filter (fun k => (Config.get config k).isNone)).Nodup :=
    List.Nodup.filter _ (by decide)
  exact fillDefaults_get_of_mem _ _ _ _ hnd hmem ho

/-- Witness for C3: the empty document with gate answer "y": every
registry key, defaults included the absent ones, is backfilled with no
prompting. -/
theorem claim_C3_witness :
    ∃ r, ensure_config_keys [] ["y"] = some r ∧ r.gates = 1 ∧ r.prompts = 0 ∧
      r.rest = [] ∧
      ∀ k o, get_option k = some o → Config.get [] k = none →
        Config.get r.config k = some o.default :=
  claim_C3 [] ["y"] [] (by decide) (by decide)

/-- Claim C4, counterexample to the claim as stated: the claim's universal
part says the loop returns only once "the entered line" coerces to an
integer `>= 30`; but on the input sequence consisting of the single empty
line, `RefreshRate.prompt` returns (with the default 60) even though no
entered line of the sequence coerces to an integer at all (the empty line
resolves to the default before the coercion is attempted). -/
theorem claim_C4_cex :
    refreshRatePrompt [""] = some (Value.vint 60, []) ∧
    (∀ line, line ∈ [""] → tryInt (Value.vstr line) = none) := by decide

/-- Claim C4 (amended): `RefreshRate.prompt` re-prompts on "10" (below
bound) and "abc" (coercion failure), accepts "30" as integer 30 and "45"
as integer 45; every terminating run returns an integer `>= 30`; and a line
is accepted exactly when the value `get_info` resolves from it (the
default 60 for an empty line, the line itself otherwise) coerces via
`int(...)` to an integer `>= 30`, any other line re-prompting. -/
theorem claim_C4 :
    (∀ rest, refreshRatePrompt ("10" :: rest) = refreshRatePrompt rest) ∧
    (∀ rest, refreshRatePrompt ("abc" :: rest) = refreshRatePrompt rest) ∧
    refreshRatePrompt ["30"] = some (Value.vint 30, []) ∧
    refreshRatePrompt ["45"] = some (Value.vint 45, []) ∧
    (∀ input v rest, refreshRatePrompt input = some (v, rest) →
       ∃ n, v = Value.vint n ∧ 30 ≤ n) ∧
    (∀ line rest r n, get_info (Value.vint 60) true (line :: rest) = some (r, rest) →
       tryInt r = some n → 30 ≤ n →
       refreshRatePrompt (line :: rest) = some (Value.vint n, rest)) ∧
    (∀ line rest r, get_info (Value.vint 60) true (line :: rest) = some (r, rest) →
       (∀ n, tryInt r = some n → n < 30) →
       refreshRatePrompt (line :: rest) = refreshRatePrompt rest) := by
  refine ⟨fun rest => rfl, fun rest => rfl, rfl, rfl, ?_, ?_, ?_⟩
  · intro input
    induction input with
    | nil => intro v rest h; cases h
    | cons line tail ih =>
        intro v rest h
        rw [refreshRatePrompt_cons] at h
        cases htry : tryInt (if line = "" then Value.vint 60 else Value.vstr line) with
        | none => simp only [htry] at h; exact ih v rest h
        | some n =>
            simp only [htry] at h
            by_cases h30 : 30 ≤ n
            · rw [if_pos h30] at h
              obtain ⟨hv, -⟩ : Value.vint n = v ∧ tail = rest := by simpa using h
              exact ⟨n, hv.symm, h30⟩
            · rw [if_neg h30] at h
              exact ih v rest h
  · intro line rest r n hg ht h30
    rw [get_info_true_cons] at hg
    have hr : (if line = "" then Value.vint 60 else Value.vstr line) = r := by
      simpa using hg
    rw [refreshRatePrompt_cons, hr, ht]
    simp [h30]
  · intro line rest r hg hlt
    rw [get_info_true_cons] at hg
    have hr : (if line = "" then Value.vint 60 else Value.vstr line) = r := by
      simpa using hg
    rw [refreshRatePrompt_cons, hr]
    cases htry : tryInt r with
    | none => rfl
    | some n => simp [not_le.mpr (hlt n htry)]

/-- Witness for C4: the terminating-run soundness component applied to the
concrete input sequence `["45"]`. -/
theorem claim_C4_witness : ∃ n, Value.vint 45 = Value.vint n ∧ 30 ≤ n :=
  claim_C4.2.2.2.2.1 ["45"] (Value.vint 45) [] (by decide)

/-- Claim C5: for the required no-default options bot-token and server-ip,
`prompt()` never returns an empty value; any finite run of empty lines
followed by one non-empty line terminates the prompt with exactly that
line; and on empty lines alone the prompt never terminates. -/
theorem claim_C5 :
    (∀ input v rest, botTokenPrompt input = some (v, rest) →
       ∃ s, v = Value.vstr s ∧ s ≠ "") ∧
    (∀ input v rest, serverIPPrompt input = some (v, rest) →
       ∃ s, v = Value.vstr s ∧ s ≠ "") ∧
    (∀ k s, s ≠ "" →
       botTokenPrompt (List.replicate k "" ++ [s]) = some (Value.vstr s, [])) ∧
    (∀ k s, s ≠ "" →
       serverIPPrompt (List.replicate k "" ++ [s]) = some (Value.vstr s, [])) ∧
    (∀ k, botTokenPrompt (List.replicate k "") = none) ∧
    (∀ k, serverIPPrompt (List.replicate k "") = none) := by
  refine ⟨?_, ?_, ?_, ?_, ?_, ?_⟩
  · intro input v rest h
    exact get_info_false_sound _ input v rest h
  · intro input v rest h
    exact get_info_false_sound _ input v rest h
  · intro k s hs
    show get_info Value.vnone false (List.replicate k "" ++ [s]) = some (Value.vstr s, [])
    rw [get_info_false_skip, get_info_false_cons _ _ _ hs]
  · intro k s hs
    show get_info Value.vnone false (List.replicate k "" ++ [s]) = some (Value.vstr s, [])
    rw [get_info_false_skip, get_info_false_cons _ _ _ hs]
  · intro k
    show get_info Value.vnone false (List.replicate k "") = none
    rw [get_info_false_all_empty]
  · intro k
    show get_info Value.vnone false (List.replicate k "") = none
    rw [get_info_false_all_empty]

/-- Witness for C5: two empty lines then "tok" yield exactly "tok". -/
theorem claim_C5_witness :
    botTokenPrompt (List.replicate 2 "" ++ ["tok"]) = some (Value.vstr "tok", []) :=
  claim_C5.2.2.1 2 "tok" (by decide)

/-- Claim C6: for maintenance-mode-detection, a negative gate answer
yields the absent value with zero subsequent prompts (the rest of the
input is untouched); an affirmative answer delegates to a non-optional
`get_info`, so empty lines re-prompt (empty is never accepted) and the
subsequent line "maintenance" is returned as the string "maintenance". -/
theorem claim_C6 :
    (∀ input rest, y_n input = some (false, rest) →
       maintenancePrompt input = some (Value.vnone, rest)) ∧
    (∀ rest, maintenancePrompt ("n" :: rest) = some (Value.vnone, rest)) ∧
    (∀ input rest, y_n input = some (true, rest) →
       maintenancePrompt input = get_info Value.vnone false rest) ∧
    (∀ rest, maintenancePrompt ("y" :: "" :: rest) = maintenancePrompt ("y" :: rest)) ∧
    maintenancePrompt ["y", "", "", "maintenance"] = some (Value.vstr "maintenance", []) ∧
    (∀ input v rest, maintenancePrompt input = some (v, rest) →
       v = Value.vnone ∨ ∃ s, v = Value.vstr s ∧ s ≠ "") := by
  refine ⟨?_, fun rest => rfl, ?_, fun rest => rfl, by decide, ?_⟩
  · intro input rest hy
    rw [maintenancePrompt, hy]
  · intro input rest hy
    rw [maintenancePrompt, hy]
  · intro input v rest h
    rw [maintenancePrompt] at h
    cases hy : y_n input with
    | none => rw [hy] at h; cases h
    | some p =>
        obtain ⟨b, rest2⟩ := p
        rw [hy] at h
        cases b with
        | false =>
            obtain ⟨hv, -⟩ : Value.vnone = v ∧ rest2 = rest := by simpa using h
            exact Or.inl hv.symm
        | true => exact Or.inr (get_info_false_sound _ _ _ _ h)

/-- Witness for C6: a negative gate answer on concrete input `["n"]`. -/
theorem claim_C6_witness : maintenancePrompt ["n"] = some (Value.vnone, []) :=
  claim_C6.1 ["n"] [] (by decide)

/-- Python `", ".join(...)` (line 276, an injected runtime primitive),
embedded directly. -/
def joinCommaSpace : List String → String
  | [] => ""
  | [k] => k
  | k :: rest => k ++ ", " ++ joinCommaSpace rest

/-- `formatted = ", ".join(all_keys)` (line 276). -/
def formattedKeys : String := joinCommaSpace all_keys

/-- `view_more` (line 228). -/
def view_more : String :=
  "View more about each option here: https://github.com/Fyssion/mc-status-bot#setup-details"

/-- The question text of the key-selection `get_info` call in
`run_config_adjustments` (lines 235-238). -/
def adjustQuestion : String :=
  "Options: " ++ formattedKeys ++ "\n" ++ view_more ++ "\nEnter option to change"

/-- The rendering claim C7 specifies for one `get_info` invocation: a
bracketed default segment exactly when a default value exists, a bare
`": "` suffix otherwise. -/
abbrev rendersPerClaim (question : String) (default : Value) (optional : Bool) : Prop :=
  renderedPrompt question default optional =
    if default = Value.vnone then question ++ ": "
    else question ++ " [" ++ default.pyStr ++ "]: "

set_option maxRecDepth 8192 in
/-- Claim C7: at every `get_info` invocation the program makes — the six
option prompts (with the question text, default and optionality each
actually passes) and the key-selection prompt of the editor loop — the
rendered line is `"<prompt_text> [<default>]: "` when a default exists and
exactly `"<prompt_text>: "` (no bracketed segment) when none does. -/
theorem claim_C7 :
    rendersPerClaim botTokenDescription botTokenOpt.default botTokenOpt.optional ∧
    rendersPerClaim prefixOption.help prefixOption.default prefixOption.optional ∧
    rendersPerClaim serverTypeOpt.help serverTypeOpt.default serverTypeOpt.optional ∧
    rendersPerClaim serverIPOpt.help serverIPOpt.default serverIPOpt.optional ∧
    rendersPerClaim refreshRateOpt.help refreshRateOpt.default refreshRateOpt.optional ∧
    rendersPerClaim maintenanceOpt.help Value.vnone false ∧
    rendersPerClaim adjustQuestion Value.vnone false := by
  refine ⟨?_, ?_, ?_, ?_, ?_, ?_, ?_⟩ <;> decide

/-- Claim C8, counterexample to the claim as stated: `ConfigOption` built
with `optional=False` and the default value `""` does NOT raise (the
constructor's check tests Python truthiness, and the empty string is
falsy), and the resulting instance violates the invariant
`optional == false → default == none`. -/
theorem claim_C8_cex :
    ConfigOption.mk? "token" "help" (Value.vstr "") false =
      Except.ok { name := "token", help := "help", default := Value.vstr "",
                  optional := false } ∧
    Value.vstr "" ≠ Value.vnone := ⟨rfl, by decide⟩

/-- Claim C8 (amended): constructing a `ConfigOption` with
`optional=False` and a *truthy* default raises `ValueError`, so every
successfully constructed instance satisfies the invariant
`optional == false → default is falsy` (`None`, `""` or `0`). -/
theorem claim_C8 :
    (∀ nm hp d o opt, ConfigOption.mk? nm hp d o = Except.ok opt →
       opt.name = nm ∧ opt.help = hp ∧ opt.default = d ∧ opt.optional = o ∧
       (opt.optional = false → opt.default.truthy = false)) ∧
    (∀ nm hp d, d.truthy = true →
       ConfigOption.mk? nm hp d false =
         Except.error "this option is optional yet a default has been set") := by
  constructor
  · intro nm hp d o opt h
    unfold ConfigOption.mk? at h
    by_cases hc : (d.truthy && !o) = true
    · rw [if_pos hc] at h; cases h
    · rw [if_neg hc] at h
      obtain rfl : ({ name := nm, help := hp, default := d, optional := o } :
          ConfigOption) = opt := by simpa using h
      refine ⟨rfl, rfl, rfl, rfl, ?_⟩
      intro ho
      change o = false at ho
      subst ho
      change d.truthy = false
      simpa using hc
  · intro nm hp d hd
    unfold ConfigOption.mk?
    have hc : (d.truthy && !false) = true := by simp [hd]
    rw [if_pos hc]

/-- Witness for C8: the constructor applied to a truthy default with
`optional=False` errors out. -/
theorem claim_C8_witness :
    ConfigOption.mk? "x" "h2" (Value.vstr ";") false =
      Except.error "this option is optional yet a default has been set" :=
  claim_C8.2 "x" "h2" (Value.vstr ";") (by decide)

/-- Every successful `get_info` call consumes at least one input line. -/
theorem get_info_some_length (d : Value) (o : Bool) (input : List String) :
    ∀ v rest, get_info d o input = some (v, rest) → rest.length < input.length := by
  induction input with
  | nil => intro v rest h; cases h
  | cons line tail ih =>
      intro v rest h
      unfold get_info at h
      split_ifs at h with h1 h2
      · obtain ⟨-, hr⟩ : d = v ∧ tail = rest := by simpa using h
        subst hr; exact Nat.lt_succ_self _
      · exact Nat.lt_succ_of_lt (ih v rest h)
      · obtain ⟨-, hr⟩ : Value.vstr line = v ∧ tail = rest := by simpa using h
        subst hr; exact Nat.lt_succ_self _

/-- Every successful `y_n` call consumes at least one input line. -/
theorem y_n_some_length (input : List String) :
    ∀ b rest, y_n input = some (b, rest) → rest.length < input.length := by
  induction input with
  | nil => intro b rest h; cases h
  | cons line tail ih =>
      intro b rest h
      unfold y_n at h
      split_ifs at h with h1 h2
      · obtain ⟨-, hr⟩ : true = b ∧ tail = rest := by simpa using h
        subst hr; exact Nat.lt_succ_self _
      · obtain ⟨-, hr⟩ : false = b ∧ tail = rest := by simpa using h
        subst hr; exact Nat.lt_succ_self _
      · exact Nat.lt_succ_of_lt (ih b rest h)

/-- Every successful `RefreshRate.prompt` run consumes at least one line. -/
theorem refreshRatePrompt_some_length (input : List String) :
    ∀ v rest, refreshRatePrompt input = some (v, rest) → rest.length < input.length := by
  induction input with
  | nil => intro v rest h; cases h
  | cons line tail ih =>
      intro v rest h
      rw [refreshRatePrompt_cons] at h
      cases htry : tryInt (if line = "" then Value.vint 60 else Value.vstr line) with
      | none => simp only [htry] at h; exact Nat.lt_succ_of_lt (ih v rest h)
      | some n =>
          simp only [htry] at h
          by_cases h30 : 30 ≤ n
          · rw [if_pos h30] at h
            obtain ⟨-, hr⟩ : Value.vint n = v ∧ tail = rest := by simpa using h
            subst hr; exact Nat.lt_succ_self _
          · rw [if_neg h30] at h
            exact Nat.lt_succ_of_lt (ih v rest h)

/-- Every successful `ServerType.prompt` run consumes at least one line. -/
theorem serverTypePrompt_some_length (input : List String) :
    ∀ v rest, serverTypePrompt input = some (v, rest) → rest.length < input.length := by
  induction input with
  | nil => intro v rest h; cases h
  | cons line tail ih =>
      intro v rest h
      rw [serverTypePrompt_cons] at h
      have hsc : (if line = "" then Value.vstr "java" else Value.vstr line).pyLower =
          Value.vstr (strLower (if line = "" then "java" else line)) := by
        by_cases hl : line = "" <;> simp [hl, Value.pyLower]
      simp only [hsc] at h
      by_cases hcond : strLower (if line = "" then "java" else line) = "java" ∨
          strLower (if line = "" then "java" else line) = "bedrock"
      · rw [if_pos hcond] at h
        obtain ⟨-, hr⟩ :
            Value.vstr (strLower (if line = "" then "java" else line)) = v ∧
              tail = rest := by simpa using h
        subst hr; exact Nat.lt_succ_self _
      · rw [if_neg hcond] at h
        exact Nat.lt_succ_of_lt (ih v rest h)

/-- Every successful `MaintenceModeDetection.prompt` run consumes at least
one line. -/
theorem maintenancePrompt_some_length (input : List String) :
    ∀ v rest, maintenancePrompt input = some (v, rest) → rest.length < input.length := by
  intro v rest h
  rw [maintenancePrompt] at h
  cases hy : y_n input with
  | none => rw [hy] at h; cases h
  | some p =>
      obtain ⟨b, rest2⟩ := p
      rw [hy] at h
      have hl2 := y_n_some_length input b rest2 hy
      cases b with
      | false =>
          obtain ⟨-, hr⟩ : Value.vnone = v ∧ rest2 = rest := by simpa using h
          subst hr; exact hl2
      | true => exact lt_trans (get_info_some_length Value.vnone false rest2 v rest h) hl2

/-- Every successful dispatched `option.prompt()` consumes at least one
line. -/
theorem promptByName_some_length (name : String) (input : List String) :
    ∀ v rest, promptByName name input = some (v, rest) → rest.length < input.length := by
  intro v rest h
  unfold promptByName at h
  split_ifs at h
  · exact get_info_some_length _ _ _ _ _ h
  · exact get_info_some_length _ _ _ _ _ h
  · exact serverTypePrompt_some_length _ _ _ h
  · exact get_info_some_length _ _ _ _ _ h
  · exact refreshRatePrompt_some_length _ _ _ h
  · exact maintenancePrompt_some_length _ _ _ h

/-- Observable outcome of one `run_setup()` invocation: normal completion
with the list of documents written to `config.yml`; blocked forever on
operator input; the `OSError` raised at line 273 when the dependency
bootstrap fails (with its count of `update_deps()` calls); or the
exception `yaml.safe_load` raises on a malformed document at line 222,
which no caller catches and which therefore terminates the process
abnormally. -/
inductive SetupOutcome where
  | finished (writes : List Config)
  | blocked
  | fatalOSError (remediations : Nat)
  | fatalParseError
  deriving DecidableEq, Repr

/-- The inner key-selection loop of `run_config_adjustments` (lines
234-241): `get_info(..., optional=False)` reads the next non-empty line
(its empty-line re-prompt is inlined here; `chooseKey_eq` below proves the
composition exact), the answer is lowercased, accepted when it is one of
`all_keys`, and re-prompted otherwise. -/
def chooseKey : List String → Option (String × List String)
  | [] => none
  | line :: rest =>
      if line = "" then chooseKey rest
      else if strLower line ∈ all_keys then some (strLower line, rest)
      else chooseKey rest

/-- `chooseKey` is exactly the source's composition of a non-optional
`get_info` with the lowercase-and-membership check. -/
theorem chooseKey_eq (input : List String) :
    chooseKey input =
      match get_info Value.vnone false input with
      | none => none
      | some (Value.vstr s, rest) =>
          if strLower s ∈ all_keys then some (strLower s, rest) else chooseKey rest
      | some (Value.vint _, _) => none
      | some (Value.vnone, _) => none := by
  induction input with
  | nil => rfl
  | cons line tail ih =>
      by_cases hl : line = ""
      · subst hl
        rw [get_info_false_empty, ← ih]
        simp [chooseKey]
      · rw [get_info_false_cons _ _ _ hl]
        simp [chooseKey, hl]

/-- Every successful key selection consumes at least one input line. -/
theorem chooseKey_some_length (input : List String) :
    ∀ k rest, chooseKey input = some (k, rest) → rest.length < input.length := by
  induction input with
  | nil => intro k rest h; cases h
  | cons line tail ih =>
      intro k rest h
      unfold chooseKey at h
      split_ifs at h with h1 h2
      · exact Nat.lt_succ_of_lt (ih k rest h)
      · obtain ⟨-, hr⟩ : strLower line = k ∧ tail = rest := by simpa using h
        subst hr; exact Nat.lt_succ_self _
      · exact Nat.lt_succ_of_lt (ih k rest h)

/-- The outer editor loop of `run_config_adjustments` (lines 233-250):
select a key, run that option's `prompt()`, assign the result into the
in-memory document, then ask "Change another option?" — repeating while
affirmed; on exit the edited document and the unread input are returned
for the final write. -/
def editLoop (config : Config) (input : List String) : Option (Config × List String) :=
  match hk : chooseKey input with
  | none => none
  | some (key, rest) =>
      match hp : promptByName key rest with
      | none => none
      | some (v, rest2) =>
          match hy : y_n rest2 with
          | none => none
          | some (true, rest3) => editLoop (Config.set config key v) rest3
          | some (false, rest3) => some (Config.set config key v, rest3)
termination_by input.length
decreasing_by
  exact lt_trans (lt_trans (y_n_some_length rest2 true rest3 hy)
    (promptByName_some_length key rest v rest2 hp))
    (chooseKey_some_length input key rest hk)

/-- `run_config_adjustments` (lines 218-255): re-read `config.yml` (the
document-library collaborator's outcome is injected: `Except.ok` is the
loaded mapping, `Except.error` models `yaml.safe_load` raising on a
malformed document at line 222, which nothing in the program catches),
reconcile via `ensure_config_keys`, gate "Change info in config file?";
declined returns with no further write; accepted runs the editor loop and
writes the edited document once at the end (lines 252-253). -/
def run_config_adjustments : Except Unit Config → List String → SetupOutcome
  | Except.error _, _ => SetupOutcome.fatalParseError
  | Except.ok current_config, input =>
      match ensure_config_keys current_config input with
      | none => SetupOutcome.blocked
      | some r =>
          match y_n r.rest with
          | none => SetupOutcome.blocked
          | some (false, _) => SetupOutcome.finished r.writes
          | some (true, rest) =>
              match editLoop r.config rest with
              | none => SetupOutcome.blocked
              | some (config2, _) => SetupOutcome.finished (r.writes ++ [config2])

/-- The post-bootstrap body of `run_setup` (lines 275-295): dispatch on
the existence of `config.yml`; an existing document goes through
`run_config_adjustments`, otherwise every option is prompted in registry
order (`promptMissing` over `all_keys` is exactly that loop) and the
assembled document is written once. -/
def run_setup_after_import (config_exists : Bool) (loadResult : Except Unit Config)
    (input : List String) : SetupOutcome :=
  if config_exists then run_config_adjustments loadResult input
  else
    match promptMissing all_keys [] input 0 with
    | none => SetupOutcome.blocked
    | some (config, _, _) => SetupOutcome.finished [config]

/-- `run_setup()` (lines 258-295) end to end: the dependency bootstrap
first (`OSError` aborts with its `update_deps()` count), then the
post-import body. -/
def run_setup (importOK : Nat → Bool) (config_exists : Bool)
    (loadResult : Except Unit Config) (input : List String) : SetupOutcome :=
  match run_setup_bootstrap importOK with
  | BootOutcome.fatal n => SetupOutcome.fatalOSError n
  | BootOutcome.ok _ => run_setup_after_import config_exists loadResult input

/-- With a successfully loaded document, `run_config_adjustments` either
blocks on input or finishes normally — it never terminates abnormally. -/
theorem run_config_adjustments_ok_shape (config : Config) (input : List String) :
    run_config_adjustments (Except.ok config) input = SetupOutcome.blocked ∨
    ∃ ws, run_config_adjustments (Except.ok config) input = SetupOutcome.finished ws := by
  simp only [run_config_adjustments]
  repeat' split
  all_goals first
    | exact Or.inl rfl
    | exact Or.inr ⟨_, rfl⟩

/-- Once the import bootstrap has succeeded, the rest of the setup blocks
or finishes normally except in exactly one case: `config.yml` exists and
is malformed, which surfaces the parse exception. -/
theorem run_setup_after_import_shape (ce : Bool) (lr : Except Unit Config)
    (input : List String) :
    run_setup_after_import ce lr input = SetupOutcome.blocked ∨
    (∃ ws, run_setup_after_import ce lr input = SetupOutcome.finished ws) ∨
    (ce = true ∧ lr = Except.error () ∧
       run_setup_after_import ce lr input = SetupOutcome.fatalParseError) := by
  unfold run_setup_after_import
  cases ce with
  | false =>
      rw [if_neg (by simp : ¬(false = true))]
      cases promptMissing all_keys [] input 0 with
      | none => exact Or.inl rfl
      | some t =>
          obtain ⟨c, r, m⟩ := t
          exact Or.inr (Or.inl ⟨[c], rfl⟩)
  | true =>
      rw [if_pos rfl]
      cases lr with
      | error u => cases u; exact Or.inr (Or.inr ⟨rfl, rfl, rfl⟩)
      | ok c =>
          rcases run_config_adjustments_ok_shape c input with hsh | ⟨ws, hsh⟩
          · exact Or.inl hsh
          · exact Or.inr (Or.inl ⟨ws, hsh⟩)

/-- After a successful import, no `OSError` abort is reachable, and the
parse abort is reachable only from an existing malformed document. -/
theorem run_setup_after_import_not_fatal (ce : Bool) (lr : Except Unit Config)
    (input : List String) :
    (∀ n, run_setup_after_import ce lr input ≠ SetupOutcome.fatalOSError n) ∧
    (run_setup_after_import ce lr input = SetupOutcome.fatalParseError →
       ce = true ∧ lr = Except.error ()) := by
  rcases run_setup_after_import_shape ce lr input with hsh | ⟨ws, hsh⟩ | ⟨hce, hlr, hsh⟩
  · exact ⟨fun n => by simp [hsh], by simp [hsh]⟩
  · exact ⟨fun n => by simp [hsh], by simp [hsh]⟩
  · exact ⟨fun n => by simp [hsh], fun _ => ⟨hce, hlr⟩⟩

/-- The bootstrap raises only after both import attempts failed, with two
`update_deps()` calls on the way. -/
theorem run_setup_bootstrap_fatal_inv (importOK : Nat → Bool) (r : Nat)
    (h : run_setup_bootstrap importOK = BootOutcome.fatal r) :
    importOK 0 = false ∧ importOK 1 = false ∧ r = 2 := by
  unfold run_setup_bootstrap at h
  cases h0 : importOK 0 with
  | true => rw [h0] at h; simp at h
  | false =>
      rw [h0] at h
      cases h1 : importOK 1 with
      | true => rw [h1] at h; simp at h
      | false =>
          rw [h1] at h
          simp at h
          exact ⟨rfl, rfl, h.symm⟩

/-- Claim C9, counterexample to the claim as stated, in two parts.
First, when both import attempts fail, the bootstrap performs TWO
`update_deps()` re-provisioning calls before raising `OSError` (the
second one right before the raise, never re-checked), not "exactly one".
Second, the dependency abort is not the only abnormal-termination path of
the program: with the import succeeding on the first try (so the
dependency condition never arises), an existing `config.yml` that fails
to parse still terminates the process abnormally — `yaml.safe_load`
raises at line 222 and nothing catches it — an abort distinct from the
dependency one. -/
theorem claim_C9_cex :
    run_setup_bootstrap (fun _ => false) = BootOutcome.fatal 2 ∧ (2 : Nat) ≠ 1 ∧
    run_setup_bootstrap (fun _ => true) = BootOutcome.ok 0 ∧
    run_setup (fun _ => true) true (Except.error ()) [] = SetupOutcome.fatalParseError ∧
    SetupOutcome.fatalParseError ≠ SetupOutcome.fatalOSError 2 := by
  decide

/-- Claim C9 (amended): a first-try import success proceeds with zero
re-provisioning calls; a first failure triggers one re-provisioning call
and one import retry, whose success proceeds; if the retry also fails, the
bootstrap makes a second (never re-checked) re-provisioning call and
aborts fatally, and a double import failure aborts the whole run that way.
The dependency abort is the only abnormal termination arising from the
bootstrap: across the whole program it reaches the `OSError` abort exactly
when both import attempts fail, while the one other abnormal-termination
path — the uncaught parse exception — is reached exactly from an existing
`config.yml` whose load fails. -/
theorem claim_C9 (importOK : Nat → Bool) :
    (importOK 0 = true → run_setup_bootstrap importOK = BootOutcome.ok 0) ∧
    (importOK 0 = false → importOK 1 = true →
       run_setup_bootstrap importOK = BootOutcome.ok 1) ∧
    (importOK 0 = false → importOK 1 = false →
       run_setup_bootstrap importOK = BootOutcome.fatal 2) ∧
    (∀ r, run_setup_bootstrap importOK = BootOutcome.fatal r →
       importOK 0 = false ∧ importOK 1 = false ∧ r = 2) ∧
    (∀ ce lr input n, run_setup importOK ce lr input = SetupOutcome.fatalOSError n →
       importOK 0 = false ∧ importOK 1 = false ∧ n = 2) ∧
    (∀ ce lr input, run_setup importOK ce lr input = SetupOutcome.fatalParseError →
       ce = true ∧ lr = Except.error ()) ∧
    (importOK 0 = false → importOK 1 = false → ∀ ce lr input,
       run_setup importOK ce lr input = SetupOutcome.fatalOSError 2) ∧
    (∀ k, run_setup_bootstrap importOK = BootOutcome.ok k → ∀ input,
       run_setup importOK true (Except.error ()) input = SetupOutcome.fatalParseError) := by
  refine ⟨fun h0 => by simp [run_setup_bootstrap, h0],
    fun h0 h1 => by simp [run_setup_bootstrap, h0, h1],
    fun h0 h1 => by simp [run_setup_bootstrap, h0, h1],
    fun r h => run_setup_bootstrap_fatal_inv importOK r h, ?_, ?_, ?_, ?_⟩
  · intro ce lr input n h
    unfold run_setup at h
    cases hb : run_setup_bootstrap importOK with
    | ok k =>
        rw [hb] at h
        exact absurd h ((run_setup_after_import_not_fatal ce lr input).1 n)
    | fatal m =>
        rw [hb] at h
        have hm : m = n := by simpa using h
        obtain ⟨ha, hb2, hm2⟩ := run_setup_bootstrap_fatal_inv importOK m hb
        exact ⟨ha, hb2, hm ▸ hm2⟩
  · intro ce lr input h
    unfold run_setup at h
    cases hb : run_setup_bootstrap importOK with
    | ok k =>
        rw [hb] at h
        exact (run_setup_after_import_not_fatal ce lr input).2 h
    | fatal m => rw [hb] at h; simp at h
  · intro h0 h1 ce lr input
    have hb : run_setup_bootstrap importOK = BootOutcome.fatal 2 := by
      simp [run_setup_bootstrap, h0, h1]
    unfold run_setup
    rw [hb]
  · intro k hb input
    unfold run_setup
    rw [hb]
    rfl

/-- Witness for C9: with the import succeeding immediately, setup proceeds
with zero remediation calls. -/
theorem claim_C9_witness :
    run_setup_bootstrap (fun _ => true) = BootOutcome.ok 0 :=
  (claim_C9 (fun _ => true)).1 rfl

/-- Claim C10: whenever `ServerType.prompt` terminates, the returned value
is the lowercase string "java" or "bedrock"; and an empty first line
accepts the default, which itself goes through the lowercasing and
membership check and comes back as "java". -/
theorem claim_C10 :
    (∀ input v rest, serverTypePrompt input = some (v, rest) →
       v = Value.vstr "java" ∨ v = Value.vstr "bedrock") ∧
    (∀ rest, serverTypePrompt ("" :: rest) = some (Value.vstr "java", rest)) := by
  refine ⟨?_, fun rest => rfl⟩
  intro input
  induction input with
  | nil => intro v rest h; cases h
  | cons line tail ih =>
      intro v rest h
      rw [serverTypePrompt_cons] at h
      have hsc : (if line = "" then Value.vstr "java" else Value.vstr line).pyLower =
          Value.vstr (strLower (if line = "" then "java" else line)) := by
        by_cases hl : line = "" <;> simp [hl, Value.pyLower]
      simp only [hsc] at h
      by_cases hcond : strLower (if line = "" then "java" else line) = "java" ∨
          strLower (if line = "" then "java" else line) = "bedrock"
      · rw [if_pos hcond] at h
        obtain ⟨hv, -⟩ :
            Value.vstr (strLower (if line = "" then "java" else line)) = v ∧
              tail = rest := by simpa using h
        rcases hcond with hj | hb
        · exact Or.inl (by rw [← hv, hj])
        · exact Or.inr (by rw [← hv, hb])
      · rw [if_neg hcond] at h
        exact ih v rest h

/-- Witness for C10: the terminating-run soundness component applied to
the concrete input `["BEDROCK"]`, which is case-normalized and accepted. -/
theorem claim_C10_witness :
    Value.vstr "bedrock" = Value.vstr "java" ∨
      Value.vstr "bedrock" = Value.vstr "bedrock" :=
  claim_C10.1 ["BEDROCK"] (Value.vstr "bedrock") [] (by decide)

end MCStatusBot
